import Mathlib

/-!
Verification of the AP2 mandate-lifecycle model and RFC 7807-style error
taxonomy.  The repository ships only harness/test code for the core
(`src/ap2/types/mandate.py` and `src/ap2/types/error_schema.py` are imported
by every test but are not part of the source tree), so the core data model
and operations are modelled from the specification, faithful to its words
and to the behaviour the tests pin down.
-/

namespace AP2

/-- Timestamps are ISO-8601 UTC strings in the source; chronological order on
them coincides with the order of the instants they denote, so they are
modelled abstractly as naturals ordered by `≤`. -/
abbrev Timestamp := Nat

/-- Modelled from the spec: `MandateStatus` (src/ap2/types/mandate.py is not
under src/), the closed enumeration
`DRAFT, ACTIVE, REVOKED, EXPIRED, COMPLETED, FAILED`. -/
inductive MandateStatus where
  | DRAFT
  | ACTIVE
  | REVOKED
  | EXPIRED
  | COMPLETED
  | FAILED
deriving DecidableEq, BEq, Repr

/-- Modelled from the spec: the variant payloads of the three mandate kinds
(`IntentMandate` carries a natural-language description and an expiry;
`CartMandate` carries line items; `PaymentMandate` carries a payment
instrument and an amount).  Payload validation is out of scope. -/
inductive MandatePayload where
  | intent (natural_language_description : String) (intent_expiry : String)
  | cart (line_items : List String)
  | payment (payment_instrument : String) (amount : Int)
deriving DecidableEq, Repr

/-- Modelled from the spec: the base mandate record (src/ap2/types/mandate.py
is not under src/): a lifecycle status defaulting to `ACTIVE`, creation and
update timestamps, an opaque reference used for error correlation, and the
variant payload. -/
structure Mandate where
  status : MandateStatus
  created_at : Timestamp
  updated_at : Timestamp
  reference : String
  payload : MandatePayload
deriving DecidableEq, Repr

/-- Modelled from the spec: the `ErrorType` catalog
(src/ap2/types/error_schema.py is not under src/), a closed enumeration of
the nineteen required kinds. -/
inductive ErrorType where
  | MANDATE_NOT_FOUND
  | MANDATE_ALREADY_REVOKED
  | MANDATE_EXPIRED
  | MANDATE_INVALID_STATUS
  | MANDATE_REVOCATION_FAILED
  | PAYMENT_METHOD_NOT_SUPPORTED
  | PAYMENT_DECLINED
  | PAYMENT_AMOUNT_EXCEEDED
  | PAYMENT_INSUFFICIENT_FUNDS
  | PAYMENT_PROCESSOR_ERROR
  | UNAUTHORIZED_AGENT
  | INVALID_SIGNATURE
  | MISSING_AUTHORIZATION
  | INVALID_MANDATE_FORMAT
  | MISSING_REQUIRED_FIELD
  | INVALID_PAYMENT_REQUEST
  | INTERNAL_SERVER_ERROR
  | SERVICE_UNAVAILABLE
  | TIMEOUT
deriving DecidableEq, BEq, Repr

/-- The fixed scheme+host base of every error type URI. -/
def errorURIBase : String := "https://ap2-protocol.org/errors/"

/-- Modelled from the spec: each `ErrorType` member's value is its canonical
URI, `https://ap2-protocol.org/errors/<kind-slug>`. -/
def ErrorType.value : ErrorType → String
  | .MANDATE_NOT_FOUND => errorURIBase ++ "mandate-not-found"
  | .MANDATE_ALREADY_REVOKED => errorURIBase ++ "mandate-already-revoked"
  | .MANDATE_EXPIRED => errorURIBase ++ "mandate-expired"
  | .MANDATE_INVALID_STATUS => errorURIBase ++ "mandate-invalid-status"
  | .MANDATE_REVOCATION_FAILED => errorURIBase ++ "mandate-revocation-failed"
  | .PAYMENT_METHOD_NOT_SUPPORTED => errorURIBase ++ "payment-method-not-supported"
  | .PAYMENT_DECLINED => errorURIBase ++ "payment-declined"
  | .PAYMENT_AMOUNT_EXCEEDED => errorURIBase ++ "payment-amount-exceeded"
  | .PAYMENT_INSUFFICIENT_FUNDS => errorURIBase ++ "payment-insufficient-funds"
  | .PAYMENT_PROCESSOR_ERROR => errorURIBase ++ "payment-processor-error"
  | .UNAUTHORIZED_AGENT => errorURIBase ++ "unauthorized-agent"
  | .INVALID_SIGNATURE => errorURIBase ++ "invalid-signature"
  | .MISSING_AUTHORIZATION => errorURIBase ++ "missing-authorization"
  | .INVALID_MANDATE_FORMAT => errorURIBase ++ "invalid-mandate-format"
  | .MISSING_REQUIRED_FIELD => errorURIBase ++ "missing-required-field"
  | .INVALID_PAYMENT_REQUEST => errorURIBase ++ "invalid-payment-request"
  | .INTERNAL_SERVER_ERROR => errorURIBase ++ "internal-server-error"
  | .SERVICE_UNAVAILABLE => errorURIBase ++ "service-unavailable"
  | .TIMEOUT => errorURIBase ++ "timeout"

/-- The full catalog as a list, witnessing that the enumeration is closed. -/
def ErrorType.all : List ErrorType :=
  [.MANDATE_NOT_FOUND, .MANDATE_ALREADY_REVOKED, .MANDATE_EXPIRED,
   .MANDATE_INVALID_STATUS, .MANDATE_REVOCATION_FAILED,
   .PAYMENT_METHOD_NOT_SUPPORTED, .PAYMENT_DECLINED, .PAYMENT_AMOUNT_EXCEEDED,
   .PAYMENT_INSUFFICIENT_FUNDS, .PAYMENT_PROCESSOR_ERROR,
   .UNAUTHORIZED_AGENT, .INVALID_SIGNATURE, .MISSING_AUTHORIZATION,
   .INVALID_MANDATE_FORMAT, .MISSING_REQUIRED_FIELD, .INVALID_PAYMENT_REQUEST,
   .INTERNAL_SERVER_ERROR, .SERVICE_UNAVAILABLE, .TIMEOUT]

/-- Modelled from the spec: `AP2Error`, the RFC 7807-style problem detail
value (src/ap2/types/error_schema.py is not under src/). -/
structure AP2Error where
  type : String
  title : String
  status : Nat
  detail : String
  mandate_reference : Option String
deriving DecidableEq, Repr

/-- Modelled from the spec: `create_error(kind, title, status, detail,
mandate_reference=None)` — pure constructor, always succeeds, populates
`type` from the kind's canonical URI. -/
def create_error (kind : ErrorType) (title : String) (status : Nat)
    (detail : String) (mandate_reference : Option String := none) : AP2Error :=
  { type := kind.value
    title := title
    status := status
    detail := detail
    mandate_reference := mandate_reference }

/-- Modelled from the spec: helper constructor for `MANDATE_NOT_FOUND` (404),
taking the mandate reference. -/
def mandate_not_found_error (mandate_reference : String) : AP2Error :=
  create_error .MANDATE_NOT_FOUND "Mandate Not Found" 404
    ("Mandate " ++ mandate_reference ++ " could not be found.")
    (some mandate_reference)

/-- Modelled from the spec: helper constructor for `MANDATE_ALREADY_REVOKED`
(409), taking the mandate reference; the detail text follows the wire-format
example of the spec. -/
def mandate_already_revoked_error (mandate_reference : String) : AP2Error :=
  create_error .MANDATE_ALREADY_REVOKED "Mandate Already Revoked" 409
    ("Mandate " ++ mandate_reference ++ " has already been revoked and cannot be used.")
    (some mandate_reference)

/-- Modelled from the spec: helper constructor for `MANDATE_EXPIRED` (410),
taking the mandate reference. -/
def mandate_expired_error (mandate_reference : String) : AP2Error :=
  create_error .MANDATE_EXPIRED "Mandate Expired" 410
    ("Mandate " ++ mandate_reference ++ " has expired and cannot be used.")
    (some mandate_reference)

/-- Modelled from the spec: helper constructor for `PAYMENT_DECLINED` (402),
taking the detail text. -/
def payment_declined_error (detail : String) : AP2Error :=
  create_error .PAYMENT_DECLINED "Payment Declined" 402 detail none

/-- Modelled from the spec: helper constructor for `UNAUTHORIZED_AGENT` (401),
taking the agent identifier, folded into the detail text. -/
def unauthorized_agent_error (agent_id : String) : AP2Error :=
  create_error .UNAUTHORIZED_AGENT "Unauthorized Agent" 401
    ("Agent " ++ agent_id ++ " is not authorized to perform this action.") none

/-- Modelled from the spec: helper constructor for `INTERNAL_SERVER_ERROR`
(500), taking the detail text. -/
def internal_server_error (detail : String) : AP2Error :=
  create_error .INTERNAL_SERVER_ERROR "Internal Server Error" 500 detail none

/-- Modelled from the spec: `create(variant, payload)` — a new mandate has
`status = ACTIVE` and `created_at = updated_at = now()`.  Total: creation
never fails on a well-formed payload (payload validation is out of scope). -/
def create (payload : MandatePayload) (reference : String)
    (now : Timestamp) : Mandate :=
  { status := MandateStatus.ACTIVE
    created_at := now
    updated_at := now
    reference := reference
    payload := payload }

/-- Modelled from the spec: `isExecutable(mandate)` returns
`status == ACTIVE`; a pure, total predicate. -/
def isExecutable (m : Mandate) : Bool :=
  m.status == MandateStatus.ACTIVE

/-- Modelled from the spec: `revoke(mandate)` — if `status == ACTIVE`, set
`status = REVOKED` and refresh `updated_at`; if already `REVOKED`, fail with
`MANDATE_ALREADY_REVOKED` carrying the mandate's reference; in any other
non-active state, fail with the one consistent kind
`MANDATE_INVALID_STATUS`. -/
def revoke (m : Mandate) (now : Timestamp) : Except AP2Error Mandate :=
  match m.status with
  | MandateStatus.ACTIVE =>
      Except.ok { m with status := MandateStatus.REVOKED, updated_at := now }
  | MandateStatus.REVOKED =>
      Except.error (mandate_already_revoked_error m.reference)
  | _ =>
      Except.error (create_error .MANDATE_INVALID_STATUS
        "Mandate Invalid Status" 409
        ("Mandate " ++ m.reference ++ " is not in a revocable state.")
        (some m.reference))

/-- Direct field assignment to `status`, as exercised by the repository's
tests (`mandate.status = X`): an unguarded record update that bypasses the
lifecycle checks and touches no other field. -/
def setStatus (m : Mandate) (s : MandateStatus) : Mandate :=
  { m with status := s }

/-- The primitive values a serialized error mapping may hold: JSON strings
and integers, so the mapping is directly JSON-encodable. -/
inductive JsonValue where
  | str (s : String)
  | num (n : Nat)
deriving DecidableEq, Repr

/-- Modelled from the spec: serialization of an `AP2Error`
(`model_dump` in the tests) — a mapping with keys exactly
`type, title, status, detail`, plus `mandate_reference` when present. -/
def model_dump (e : AP2Error) : List (String × JsonValue) :=
  [("type", JsonValue.str e.type),
   ("title", JsonValue.str e.title),
   ("status", JsonValue.num e.status),
   ("detail", JsonValue.str e.detail)] ++
  (match e.mandate_reference with
   | some r => [("mandate_reference", JsonValue.str r)]
   | none => [])

/-- Extract a string value bound to a key in the serialized mapping. -/
def lookupStr (key : String) (j : List (String × JsonValue)) : Option String :=
  match j.lookup key with
  | some (JsonValue.str s) => some s
  | _ => none

/-- Extract an integer value bound to a key in the serialized mapping. -/
def lookupNum (key : String) (j : List (String × JsonValue)) : Option Nat :=
  match j.lookup key with
  | some (JsonValue.num n) => some n
  | _ => none

/-- Modelled from the spec: decoding the serialized mapping back into an
error value — the four required fields must be present with their required
types, `mandate_reference` is optional. -/
def decodeError (j : List (String × JsonValue)) : Option AP2Error :=
  match lookupStr "type" j, lookupStr "title" j,
        lookupNum "status" j, lookupStr "detail" j with
  | some t, some ti, some st, some d =>
      some { type := t, title := ti, status := st, detail := d,
             mandate_reference := lookupStr "mandate_reference" j }
  | _, _, _, _ => none

/-- One serialized ordering of `N` racing `revoke` calls on a shared mandate:
each call's read-check-update sequence is atomic per the spec's concurrency
requirement, so every schedule is some sequential order of the calls, and
the list of per-call instants ranges over all such orders.  A failed call
leaves the mandate untouched. -/
def revokeRace (m : Mandate) : List Timestamp → List (Except AP2Error Mandate)
  | [] => []
  | t :: ts =>
      match revoke m t with
      | Except.ok m' => Except.ok m' :: revokeRace m' ts
      | Except.error e => Except.error e :: revokeRace m ts

/-- Whether a racing call succeeded. -/
def isSuccess : Except AP2Error Mandate → Bool
  | Except.ok _ => true
  | Except.error _ => false

/-! ### Helper lemmas (shared) -/

/-- `revoke` on a `REVOKED` mandate returns the already-revoked error. -/
theorem revoke_revoked_eq (m : Mandate) (now : Timestamp)
    (h : m.status = MandateStatus.REVOKED) :
    revoke m now = Except.error (mandate_already_revoked_error m.reference) := by
  unfold revoke
  rw [h]

/-- `revoke` on an `ACTIVE` mandate succeeds with the revoked update. -/
theorem revoke_active_eq (m : Mandate) (now : Timestamp)
    (h : m.status = MandateStatus.ACTIVE) :
    revoke m now =
      Except.ok { m with status := MandateStatus.REVOKED, updated_at := now } := by
  unfold revoke
  rw [h]

/-- Every racing call against an already-`REVOKED` mandate fails with the
already-revoked error. -/
theorem revokeRace_revoked (m : Mandate) (ts : List Timestamp)
    (h : m.status = MandateStatus.REVOKED) :
    revokeRace m ts =
      List.replicate ts.length
        (Except.error (mandate_already_revoked_error m.reference)) := by
  induction ts with
  | nil => rfl
  | cons t ts ih =>
      rw [revokeRace, revoke_revoked_eq m t h, ih]
      rfl

/-- Counting with a predicate over a replicated list. -/
theorem countP_replicate {α : Type} (p : α → Bool) (n : Nat) (a : α) :
    (List.replicate n a).countP p = if p a then n else 0 := by
  induction n with
  | zero => simp
  | succ n ih =>
      rw [List.replicate_succ, List.countP_cons, ih]
      by_cases h : p a = true <;> simp [h]

/-! ### Claims -/

/-- C1: For every mandate and every one of the six `MandateStatus` values,
`isExecutable` returns `true` if and only if the mandate's status is
`ACTIVE`: the exhaustive status table sends `ACTIVE` to `true` and `DRAFT`,
`REVOKED`, `EXPIRED`, `COMPLETED`, `FAILED` to `false`.  `isExecutable` is a
total Lean function, hence a pure predicate with no side effect that never
fails. -/
theorem isExecutable_status_table (m : Mandate) :
    isExecutable m =
      (match m.status with
       | MandateStatus.ACTIVE => true
       | MandateStatus.DRAFT => false
       | MandateStatus.REVOKED => false
       | MandateStatus.EXPIRED => false
       | MandateStatus.COMPLETED => false
       | MandateStatus.FAILED => false) := by
  cases m with
  | mk s c u r p => cases s <;> rfl

set_option maxRecDepth 4096

/-- C2: Revoking a mandate whose status is already `REVOKED` fails with an
`AP2Error` whose `status` is 409, whose `type` URI ends in
`mandate-already-revoked`, and whose `mandate_reference` equals the
mandate's reference. -/
theorem revoke_already_revoked_conflict (m : Mandate) (now : Timestamp)
    (h : m.status = MandateStatus.REVOKED) :
    revoke m now = Except.error (mandate_already_revoked_error m.reference) ∧
    (mandate_already_revoked_error m.reference).status = 409 ∧
    (∃ s, (mandate_already_revoked_error m.reference).type =
      s ++ "mandate-already-revoked") ∧
    (mandate_already_revoked_error m.reference).mandate_reference =
      some m.reference :=
  ⟨revoke_revoked_eq m now h, rfl, ⟨errorURIBase, rfl⟩, rfl⟩

/-- Witness for C2 at a concrete revoked mandate. -/
theorem revoke_already_revoked_conflict_witness :
    revoke
        { status := MandateStatus.REVOKED, created_at := 0, updated_at := 0,
          reference := "revoked-456",
          payload := MandatePayload.intent "Buy shoes" "2025-12-31T23:59:59Z" } 1 =
      Except.error (mandate_already_revoked_error "revoked-456") ∧
    (mandate_already_revoked_error "revoked-456").status = 409 ∧
    (∃ s, (mandate_already_revoked_error "revoked-456").type =
      s ++ "mandate-already-revoked") ∧
    (mandate_already_revoked_error "revoked-456").mandate_reference =
      some "revoked-456" :=
  revoke_already_revoked_conflict
    { status := MandateStatus.REVOKED, created_at := 0, updated_at := 0,
      reference := "revoked-456",
      payload := MandatePayload.intent "Buy shoes" "2025-12-31T23:59:59Z" } 1 rfl

/-- C3: For every mandate variant (intent, cart, payment payloads) and every
well-formed payload, creation is total (never fails) and the new mandate has
`status = ACTIVE` and `created_at = updated_at` (both the creation
instant). -/
theorem create_defaults (p : MandatePayload) (ref : String) (now : Timestamp) :
    (create p ref now).status = MandateStatus.ACTIVE ∧
    (create p ref now).created_at = (create p ref now).updated_at ∧
    (create p ref now).created_at = now :=
  ⟨rfl, rfl, rfl⟩

/-- C4: Revoking an `ACTIVE` mandate succeeds, leaves status `REVOKED`, and
sets `updated_at` to a value no smaller than the prior `updated_at`
(monotone non-decrease, given a clock reading no earlier than the last
update), preserving `updated_at ≥ created_at`. -/
theorem revoke_active_spec (m : Mandate) (now : Timestamp)
    (hact : m.status = MandateStatus.ACTIVE)
    (hmono : m.updated_at ≤ now)
    (hinv : m.created_at ≤ m.updated_at) :
    ∃ m', revoke m now = Except.ok m' ∧
      m'.status = MandateStatus.REVOKED ∧
      m.updated_at ≤ m'.updated_at ∧
      m'.created_at ≤ m'.updated_at :=
  ⟨{ m with status := MandateStatus.REVOKED, updated_at := now },
    revoke_active_eq m now hact, rfl, hmono, le_trans hinv hmono⟩

/-- Witness for C4 at a concrete active mandate. -/
theorem revoke_active_spec_witness :
    ∃ m', revoke
        { status := MandateStatus.ACTIVE, created_at := 0, updated_at := 0,
          reference := "m-1",
          payload := MandatePayload.intent "Buy shoes" "2025-12-31T23:59:59Z" } 1 =
      Except.ok m' ∧
      m'.status = MandateStatus.REVOKED ∧
      (0 : Timestamp) ≤ m'.updated_at ∧
      m'.created_at ≤ m'.updated_at :=
  revoke_active_spec
    { status := MandateStatus.ACTIVE, created_at := 0, updated_at := 0,
      reference := "m-1",
      payload := MandatePayload.intent "Buy shoes" "2025-12-31T23:59:59Z" } 1
    rfl (Nat.zero_le 1) (Nat.le_refl 0)

/-- C5: Each helper error constructor fixes the kind (the `type` URI), the
title and the HTTP status of the error it builds — 404, 409, 410, 402, 401
and 500 respectively — and the three mandate helpers set `mandate_reference`
to their argument. -/
theorem helper_constructors_fixed (refA refB refC dPay agentId dSys : String) :
    (mandate_not_found_error refA).type = ErrorType.MANDATE_NOT_FOUND.value ∧
    (mandate_not_found_error refA).title = "Mandate Not Found" ∧
    (mandate_not_found_error refA).status = 404 ∧
    (mandate_not_found_error refA).mandate_reference = some refA ∧
    (mandate_already_revoked_error refB).type =
      ErrorType.MANDATE_ALREADY_REVOKED.value ∧
    (mandate_already_revoked_error refB).title = "Mandate Already Revoked" ∧
    (mandate_already_revoked_error refB).status = 409 ∧
    (mandate_already_revoked_error refB).mandate_reference = some refB ∧
    (mandate_expired_error refC).type = ErrorType.MANDATE_EXPIRED.value ∧
    (mandate_expired_error refC).title = "Mandate Expired" ∧
    (mandate_expired_error refC).status = 410 ∧
    (mandate_expired_error refC).mandate_reference = some refC ∧
    (payment_declined_error dPay).type = ErrorType.PAYMENT_DECLINED.value ∧
    (payment_declined_error dPay).title = "Payment Declined" ∧
    (payment_declined_error dPay).status = 402 ∧
    (unauthorized_agent_error agentId).type = ErrorType.UNAUTHORIZED_AGENT.value ∧
    (unauthorized_agent_error agentId).title = "Unauthorized Agent" ∧
    (unauthorized_agent_error agentId).status = 401 ∧
    (internal_server_error dSys).type = ErrorType.INTERNAL_SERVER_ERROR.value ∧
    (internal_server_error dSys).title = "Internal Server Error" ∧
    (internal_server_error dSys).status = 500 :=
  ⟨rfl, rfl, rfl, rfl, rfl, rfl, rfl, rfl, rfl, rfl, rfl, rfl, rfl, rfl, rfl,
   rfl, rfl, rfl, rfl, rfl, rfl⟩

/-- C6: Serializing any `AP2Error` yields a mapping whose keys are exactly
`type, title, status, detail`, plus `mandate_reference` exactly when a
mandate reference is present — no `mandate_reference` key appears when it is
absent.  The mapping's values are JSON primitives (`JsonValue`), so it is
directly JSON-encodable with no further transformation. -/
theorem model_dump_key_set (e : AP2Error) :
    (model_dump e).map Prod.fst =
      ["type", "title", "status", "detail"] ++
        (match e.mandate_reference with
         | some _ => ["mandate_reference"]
         | none => []) := by
  cases e with
  | mk t ti s d r => cases r <;> rfl

/-- C7: For every `ErrorType` member and every choice of title, status,
detail and optional mandate reference, decoding the encoding of the error
built by `create_error` reproduces a field-wise equal error value. -/
theorem decode_encode_create_error (k : ErrorType) (title : String)
    (status : Nat) (detail : String) (r : Option String) :
    decodeError (model_dump (create_error k title status detail r)) =
      some (create_error k title status detail r) := by
  cases r <;> rfl

/-- C8: The `ErrorType` catalog is a closed enumeration of exactly the
nineteen required members (`ErrorType.all` lists them without duplicates and
every member is in it), and every member's type URI begins with the fixed
base `https://ap2-protocol.org/errors/`. -/
theorem errorType_catalog_closed (k : ErrorType) :
    ErrorType.all.length = 19 ∧ ErrorType.all.Nodup ∧ k ∈ ErrorType.all ∧
    ∃ slug, ErrorType.value k = "https://ap2-protocol.org/errors/" ++ slug := by
  refine ⟨rfl, by decide, ?_, ?_⟩
  · cases k <;> simp [ErrorType.all]
  · cases k <;> exact ⟨_, rfl⟩

/-- C9: Direct assignment to a mandate's `status` field is unguarded: for
every mandate (in any status, terminal ones included) and every target
status the assignment succeeds and leaves every other field — `created_at`,
`updated_at`, the reference and the variant payload — unchanged. -/
theorem setStatus_unguarded_frame (m : Mandate) (s : MandateStatus) :
    (setStatus m s).status = s ∧
    (setStatus m s).created_at = m.created_at ∧
    (setStatus m s).updated_at = m.updated_at ∧
    (setStatus m s).reference = m.reference ∧
    (setStatus m s).payload = m.payload :=
  ⟨rfl, rfl, rfl, rfl, rfl⟩

/-- C10: Any serial order of `N ≥ 1` racing `revoke` calls on one fresh
`ACTIVE` mandate — each call's read-check-update being atomic per the spec,
every schedule is such an order — yields exactly one success and `N - 1`
failures, every failure being the `MANDATE_ALREADY_REVOKED` error carrying
the mandate's reference; so at most one transition out of `ACTIVE`
succeeds. -/
theorem revoke_race_one_winner (m : Mandate) (ts : List Timestamp)
    (hact : m.status = MandateStatus.ACTIVE) (hne : ts ≠ []) :
    (revokeRace m ts).countP isSuccess = 1 ∧
    (revokeRace m ts).countP (fun r => !(isSuccess r)) = ts.length - 1 ∧
    ∀ r ∈ revokeRace m ts, isSuccess r = false →
      r = Except.error (mandate_already_revoked_error m.reference) := by
  cases ts with
  | nil => exact absurd rfl hne
  | cons t ts =>
      have hrace : revokeRace m (t :: ts) =
          Except.ok { m with status := MandateStatus.REVOKED, updated_at := t } ::
            List.replicate ts.length
              (Except.error (mandate_already_revoked_error m.reference)) := by
        have hcons : revokeRace m (t :: ts) =
            Except.ok
                { m with status := MandateStatus.REVOKED, updated_at := t } ::
              revokeRace
                { m with status := MandateStatus.REVOKED, updated_at := t } ts := by
          rw [revokeRace, revoke_active_eq m t hact]
        rw [hcons,
          revokeRace_revoked
            { m with status := MandateStatus.REVOKED, updated_at := t } ts rfl]
      rw [hrace]
      refine ⟨?_, ?_, ?_⟩
      · rw [List.countP_cons, countP_replicate]
        simp [isSuccess]
      · rw [List.countP_cons, countP_replicate]
        simp [isSuccess]
      · intro r hr hfail
        rcases List.mem_cons.mp hr with hhead | htail
        · rw [hhead] at hfail
          simp [isSuccess] at hfail
        · exact List.eq_of_mem_replicate htail

/-- Witness for C10: three racing revoke calls on a concrete fresh mandate
give one success and two already-revoked failures. -/
theorem revoke_race_one_winner_witness :
    (revokeRace
        { status := MandateStatus.ACTIVE, created_at := 0, updated_at := 0,
          reference := "race-1",
          payload := MandatePayload.intent "Buy shoes" "2025-12-31T23:59:59Z" }
        [1, 2, 3]).countP isSuccess = 1 ∧
    (revokeRace
        { status := MandateStatus.ACTIVE, created_at := 0, updated_at := 0,
          reference := "race-1",
          payload := MandatePayload.intent "Buy shoes" "2025-12-31T23:59:59Z" }
        [1, 2, 3]).countP (fun r => !(isSuccess r)) = 3 - 1 ∧
    ∀ r ∈ revokeRace
        { status := MandateStatus.ACTIVE, created_at := 0, updated_at := 0,
          reference := "race-1",
          payload := MandatePayload.intent "Buy shoes" "2025-12-31T23:59:59Z" }
        [1, 2, 3], isSuccess r = false →
      r = Except.error (mandate_already_revoked_error "race-1") :=
  revoke_race_one_winner
    { status := MandateStatus.ACTIVE, created_at := 0, updated_at := 0,
      reference := "race-1",
      payload := MandatePayload.intent "Buy shoes" "2025-12-31T23:59:59Z" }
    [1, 2, 3] rfl (by decide)

end AP2
